import Mathlib

/-!
Shallow embedding of the crossplane provider-planetscale managed-resource
clients, translated from:

  internal/controller/password/password.go  (branch-password client)
  internal/controller/database/database.go  (database client)

Go functions returning `(value, error)` are embedded as functions returning a
pair whose second component is `Option GoError` (`none` = nil error).  The
external PlanetScale API calls (`Passwords.Get/Create/Delete`,
`Databases.Get/Create/Delete`) are modelled by passing the call's response
pair in as an argument: each operation is a function of the managed resource
and of the response the wire call would return.  A Go nil-pointer dereference
(a `panic`) is embedded as the `Outcome.fault` value, so totality of an
operation is a provable property rather than an assumption.
-/

namespace PlanetScaleProvider

/-- Error codes of the planetscale-go client; `notFound` is
`planetscale.ErrNotFound`, every other code is collapsed into `other` with
its tag, which is all the controller code ever distinguishes. -/
inductive PSCode where
  | notFound
  | other (tag : String)
deriving DecidableEq, Repr

/-- Go error values as this code base produces and inspects them:
a typed `*planetscale.Error` (the only error the code type-asserts on),
an `errors.New` string error, or an `errors.Wrap` of a cause with a message. -/
inductive GoError where
  | ps (code : PSCode) (msg : String)
  | simple (msg : String)
  | wrap (msg : String) (cause : GoError)
deriving DecidableEq, Repr

/-- Embeds the check `pErr, ok := err.(*planetscale.Error); ok && pErr.Code ==
planetscale.ErrNotFound` applied to a possibly-nil error. -/
def isNotFoundSentinel : Option GoError → Bool
  | some (.ps .notFound _) => true
  | _ => false

/-- Result of a Go execution path: a returned value, or a runtime fault
(nil-pointer dereference panic). -/
inductive Outcome (α : Type) where
  | ok (val : α)
  | fault
deriving DecidableEq, Repr

/-- Error message constants of package `password`. -/
def errNotPassword : String := "managed resource is not a Password custom resource"

/-- Error message constant of package `database`. -/
def errNotDatabase : String := "managed resource is not a Database custom resource"

/-- Stage tag for a failure of `c.usage.Track` (same string in both packages). -/
def errTrackPCUsage : String := "cannot track ProviderConfig usage"

/-- Stage tag for a failure fetching the ProviderConfig. -/
def errGetPC : String := "cannot get ProviderConfig"

/-- Stage tag for a failure of credential extraction. -/
def errGetCreds : String := "cannot get credentials"

/-- Stage tag for a failure of `newServiceFn`. -/
def errNewClient : String := "cannot create new Service"

/-- Spec fields of a Password custom resource that the controller reads:
`Spec.ForProvider.Organization`, `Spec.ForProvider.Database` (a `*string`,
hence `Option`), `Spec.ForProvider.Branch`. -/
structure PasswordParams where
  organization : String
  database : Option String
  branch : String
deriving DecidableEq, Repr

/-- The slice of a Password managed resource the client code touches:
`cr.Name`, the `crossplane.io/external-name` value read and written through
`meta.GetExternalName` / `meta.SetExternalName` (the empty string meaning
unset), the spec parameters, and `Status.AtProvider.ID`. -/
structure Password where
  name : String
  externalName : String
  forProvider : PasswordParams
  atProviderID : String
deriving DecidableEq, Repr

/-- Spec fields of a Database custom resource that the controller reads:
`Organization`, and the `*string` fields `Notes` and `Region`. -/
structure DatabaseParams where
  organization : String
  notes : Option String
  region : Option String
deriving DecidableEq, Repr

/-- The slice of a Database managed resource the client code touches:
`cr.Name`, the external-name value, the spec parameters,
`Status.AtProvider.State`, and whether `cr.Status.SetConditions
(xpv1.Available())` has been applied (the Ready condition). -/
structure DatabaseCR where
  name : String
  externalName : String
  forProvider : DatabaseParams
  atProviderState : String
  readyAvailable : Bool
deriving DecidableEq, Repr

/-- A `resource.Managed` argument as the clients see it: a Password, a
Database, or a managed resource of some other kind (the case the Go type
assertion `mg.(*v1alpha1.X)` rejects). -/
inductive Managed where
  | password (cr : Password)
  | database (cr : DatabaseCR)
  | foreign
deriving DecidableEq, Repr

/-- External-name value of a managed resource (empty for a foreign kind,
whose internals the clients never touch). -/
def Managed.externalName : Managed → String
  | .password cr => cr.externalName
  | .database cr => cr.externalName
  | .foreign => ""

/-- Branch data inside a created password response (`p.Branch`). -/
structure DatabaseBranch where
  accessHostURL : String
deriving DecidableEq, Repr

/-- The `planetscale.DatabaseBranchPassword` fields the controller reads:
`Name` (display name), `PublicID`, `PlainText`, `Branch`. -/
structure DatabaseBranchPassword where
  name : String
  publicID : String
  plainText : String
  branch : DatabaseBranch
deriving DecidableEq, Repr

/-- The `planetscale.Database` field the controller reads: `State`. -/
structure PSDatabase where
  state : String
deriving DecidableEq, Repr

/-- The constant `planetscale.DatabaseReady`. -/
def databaseReady : String := "ready"

/-- Embeds `managed.ExternalObservation` restricted to the fields these
clients set (`ResourceExists`, `ResourceUpToDate`; the zero value is
`false/false`). -/
structure ExternalObservation where
  resourceExists : Bool := false
  resourceUpToDate : Bool := false
deriving DecidableEq, Repr

/-- Embeds `managed.ExternalCreation`: the connection details map, as the
association list of the map literal built by the Go code (empty for the zero
value). -/
structure ExternalCreation where
  connectionDetails : List (String × String) := []
deriving DecidableEq, Repr

/-- Embeds `managed.ExternalUpdate` (the clients only ever return its zero
value). -/
structure ExternalUpdate where
  connectionDetails : List (String × String) := []
deriving DecidableEq, Repr

/-- The kube-side world `Connect` runs against: the outcome of
`c.usage.Track`, of the ProviderConfig fetch `c.kube.Get`, of
`resource.CommonCredentialExtractor` (credential bytes on success), and of
`c.newServiceFn`.  None of these is a PlanetScale API operation. -/
structure ConnectEnv where
  trackErr : Option GoError
  getPCErr : Option GoError
  credsErr : Option GoError
  creds : String
  newServiceErr : Option GoError
deriving DecidableEq, Repr

/-- Embeds `connector.Connect` of package `password`.  The external system
plays no part in Connect, so its state (of arbitrary type `σ`) is threaded
through untouched, which is exactly what the Go code does: it performs no
PlanetScale call.  The result error is `none` when an external client was
produced. -/
def passwordConnect {σ : Type} (mg : Managed) (env : ConnectEnv) (ext : σ) :
    Option GoError × σ :=
  match mg with
  | .password _ =>
    match env.trackErr with
    | some e => (some (.wrap errTrackPCUsage e), ext)
    | none =>
      match env.getPCErr with
      | some e => (some (.wrap errGetPC e), ext)
      | none =>
        match env.credsErr with
        | some e => (some (.wrap errGetCreds e), ext)
        | none =>
          match env.newServiceErr with
          | some e => (some (.wrap errNewClient e), ext)
          | none => (none, ext)
  | _ => (some (.simple errNotPassword), ext)

/-- Embeds `connector.Connect` of package `database`; identical to the
password connector except for the kind check and its message. -/
def databaseConnect {σ : Type} (mg : Managed) (env : ConnectEnv) (ext : σ) :
    Option GoError × σ :=
  match mg with
  | .database _ =>
    match env.trackErr with
    | some e => (some (.wrap errTrackPCUsage e), ext)
    | none =>
      match env.getPCErr with
      | some e => (some (.wrap errGetPC e), ext)
      | none =>
        match env.credsErr with
        | some e => (some (.wrap errGetCreds e), ext)
        | none =>
          match env.newServiceErr with
          | some e => (some (.wrap errNewClient e), ext)
          | none => (none, ext)
  | _ => (some (.simple errNotDatabase), ext)

/-- Embeds `external.Observe` of package `password`.  `resp` is the pair the
call `c.service.pCLI.Passwords.Get` returns.  Building the request
dereferences `*cr.Spec.ForProvider.Database`, so a nil `Database` faults
before the call; in the non-not-found branch the code reads `p.Name`, so a
nil result faults there.  The returned triple is the (unchanged) resource,
the observation, and the error. -/
def passwordObserve (mg : Managed)
    (resp : Option DatabaseBranchPassword × Option GoError) :
    Outcome (Managed × ExternalObservation × Option GoError) :=
  match mg with
  | .password cr =>
    match cr.forProvider.database with
    | none => .fault
    | some _ =>
      let (p, err) := resp
      if isNotFoundSentinel err then
        .ok (.password cr, { resourceExists := false }, none)
      else
        match p with
        | none => .fault
        | some pw =>
          .ok (.password cr,
               { resourceExists := true, resourceUpToDate := pw.name != cr.name },
               err)
  | _ => .ok (mg, {}, some (.simple errNotPassword))

/-- Embeds `external.Create` of package `password`.  `resp` is the pair
`c.service.pCLI.Passwords.Create` returns.  The request again dereferences
`*cr.Spec.ForProvider.Database`.  On a nil call error the code runs
`meta.SetExternalName(cr, p.PublicID)`, sets `Status.AtProvider.ID`, and
returns the connection-details map with keys host, username, password,
database; a nil result then faults at `p.PublicID`. -/
def passwordCreate (mg : Managed)
    (resp : Option DatabaseBranchPassword × Option GoError) :
    Outcome (Managed × ExternalCreation × Option GoError) :=
  match mg with
  | .password cr =>
    match cr.forProvider.database with
    | none => .fault
    | some d =>
      let (p, err) := resp
      match err with
      | some e => .ok (.password cr, {}, some e)
      | none =>
        match p with
        | none => .fault
        | some pw =>
          .ok (.password { cr with externalName := pw.publicID,
                                   atProviderID := pw.publicID },
               { connectionDetails :=
                   [("host", pw.branch.accessHostURL),
                    ("username", pw.publicID),
                    ("password", pw.plainText),
                    ("database", d)] },
               none)
  | _ => .ok (mg, {}, some (.simple errNotPassword))

/-- Embeds `external.Update` of package `password`: no kind check, no
external call (the function takes no response argument), always the zero
update and a nil error. -/
def passwordUpdate (mg : Managed) : Managed × ExternalUpdate × Option GoError :=
  (mg, {}, none)

/-- Embeds `external.Delete` of package `password`.  `resp` is the error
`c.service.pCLI.Passwords.Delete` returns, handed back to the caller
verbatim.  Building the request dereferences `*cr.Spec.ForProvider.Database`. -/
def passwordDelete (mg : Managed) (resp : Option GoError) :
    Outcome (Managed × Option GoError) :=
  match mg with
  | .password cr =>
    match cr.forProvider.database with
    | none => .fault
    | some _ => .ok (.password cr, resp)
  | _ => .ok (mg, some (.simple errNotPassword))

/-- Embeds `external.Observe` of package `database`.  `resp` is the pair
`c.service.pCLI.Databases.Get` returns.  After the not-found check the code
reads `db.State` (a nil result faults), sets the Ready/Available condition
when the state is `planetscale.DatabaseReady`, and returns
`{ResourceExists: true, ResourceUpToDate: true}` with a nil error. -/
def databaseObserve (mg : Managed)
    (resp : Option PSDatabase × Option GoError) :
    Outcome (Managed × ExternalObservation × Option GoError) :=
  match mg with
  | .database cr =>
    let (db, err) := resp
    if isNotFoundSentinel err then
      .ok (.database cr, { resourceExists := false }, none)
    else
      match db with
      | none => .fault
      | some d =>
        let cr2 := if d.state == databaseReady
                   then { cr with readyAvailable := true } else cr
        .ok (.database cr2,
             { resourceExists := true, resourceUpToDate := true },
             none)
  | _ => .ok (mg, {}, some (.simple errNotDatabase))

/-- Embeds `external.Create` of package `database`.  `resp` is the pair
`c.service.pCLI.Databases.Create` returns.  `Notes`/`Region` default to ""
when nil; on success the code stores `db.State` in the status and returns an
empty connection-details map. -/
def databaseCreate (mg : Managed)
    (resp : Option PSDatabase × Option GoError) :
    Outcome (Managed × ExternalCreation × Option GoError) :=
  match mg with
  | .database cr =>
    let (db, err) := resp
    match err with
    | some e => .ok (.database cr, {}, some e)
    | none =>
      match db with
      | none => .fault
      | some d =>
        .ok (.database { cr with atProviderState := d.state },
             { connectionDetails := [] },
             none)
  | _ => .ok (mg, {}, some (.simple errNotDatabase))

/-- Embeds `external.Update` of package `database`: identical no-op. -/
def databaseUpdate (mg : Managed) : Managed × ExternalUpdate × Option GoError :=
  (mg, {}, none)

/-- Embeds `external.Delete` of package `database`.  `resp` is the error
`c.service.pCLI.Databases.Delete` returns, handed back verbatim. -/
def databaseDelete (mg : Managed) (resp : Option GoError) :
    Outcome (Managed × Option GoError) :=
  match mg with
  | .database cr => .ok (.database cr, resp)
  | _ => .ok (mg, some (.simple errNotDatabase))

/-- A concrete Password resource used for concrete evaluations: external
name already assigned (non-empty). -/
def crPw0 : Password :=
  { name := "app-pass"
    externalName := "pscale-id-1"
    forProvider := { organization := "acme", database := some "mydb", branch := "main" }
    atProviderID := "" }

/-- A concrete Database resource used for concrete evaluations. -/
def crDb0 : DatabaseCR :=
  { name := "mydb"
    externalName := "mydb-ext"
    forProvider := { organization := "acme", notes := none, region := none }
    atProviderState := ""
    readyAvailable := false }

/-- A concrete not-found sentinel error, as the PlanetScale API returns it. -/
def notFoundErr : GoError := .ps .notFound "Not Found"

/-- A concrete non-not-found query error (e.g. a server error). -/
def internalErr : GoError := .ps (.other "internal") "server error"

/-- A live password whose display name equals `crPw0.name` (no drift). -/
def pwMatch0 : DatabaseBranchPassword :=
  { name := "app-pass", publicID := "pscale-id-1", plainText := "s3cret"
    branch := { accessHostURL := "aws.connect.psdb.cloud" } }

/-- A live password whose display name differs from `crPw0.name` (drift). -/
def pwDiff0 : DatabaseBranchPassword :=
  { name := "stale-name", publicID := "pscale-id-1", plainText := "s3cret"
    branch := { accessHostURL := "aws.connect.psdb.cloud" } }

/-- A freshly created password whose public ID differs from the external
name already recorded on `crPw0`. -/
def pwNew0 : DatabaseBranchPassword :=
  { name := "app-pass", publicID := "pscale-id-2", plainText := "s3cret"
    branch := { accessHostURL := "aws.connect.psdb.cloud" } }

/-- C1: the spec says a display-name mismatch yields `upToDate:false` and a
match yields `upToDate:true`; evaluating the code shows the opposite: with
the live display name equal to the resource name Observe reports
`ResourceUpToDate = false`, and with a differing display name it reports
`ResourceUpToDate = true` — the comparison `p.Name != cr.GetName()` is
inverted. -/
theorem C1_password_observe_upToDate_inverted :
    passwordObserve (.password crPw0) (some pwMatch0, none) =
      .ok (.password crPw0, { resourceExists := true, resourceUpToDate := false }, none) ∧
    passwordObserve (.password crPw0) (some pwDiff0, none) =
      .ok (.password crPw0, { resourceExists := true, resourceUpToDate := true }, none) := by
  constructor <;> rfl

/-- C2: the database client's Observe never propagates a non-not-found query
error: with a non-nil result it reports a successful observation with a nil
error (the failure is silently dropped), and with a nil result it faults on
the `db.State` dereference; the password client's Observe likewise faults on
a nil result instead of returning the error. -/
theorem C2_observe_error_not_returned :
    databaseObserve (.database crDb0) (some { state := "ready" }, some internalErr) =
      .ok (.database { crDb0 with readyAvailable := true },
           { resourceExists := true, resourceUpToDate := true }, none) ∧
    databaseObserve (.database crDb0) (none, some internalErr) = .fault ∧
    passwordObserve (.password crPw0) (none, some internalErr) = .fault := by
  exact ⟨rfl, rfl, rfl⟩

/-- C3: both Delete implementations return the external call's error
verbatim, so an already-absent resource (a not-found answer) is surfaced as
a non-nil error rather than normalized to success. -/
theorem C3_delete_returns_notFound_error :
    passwordDelete (.password crPw0) (some notFoundErr) =
      .ok (.password crPw0, some notFoundErr) ∧
    databaseDelete (.database crDb0) (some notFoundErr) =
      .ok (.database crDb0, some notFoundErr) ∧
    some notFoundErr ≠ (none : Option GoError) := by
  refine ⟨rfl, rfl, ?_⟩
  simp

/-- C5: in both clients a not-found answer from the external query makes
Observe return `{exists:false}` with a nil error (for the password client,
provided the `Database` spec pointer is non-nil, since the request is built
before the call). -/
theorem C5_notFound_maps_to_not_exists :
    (∀ (cr : Password) (d : String) (p : Option DatabaseBranchPassword) (err : Option GoError),
      cr.forProvider.database = some d → isNotFoundSentinel err = true →
      passwordObserve (.password cr) (p, err) =
        .ok (.password cr, { resourceExists := false }, none)) ∧
    (∀ (cr : DatabaseCR) (db : Option PSDatabase) (err : Option GoError),
      isNotFoundSentinel err = true →
      databaseObserve (.database cr) (db, err) =
        .ok (.database cr, { resourceExists := false }, none)) := by
  constructor
  · intro cr d p err hdb hnf
    simp [passwordObserve, hdb, hnf]
  · intro cr db err hnf
    simp [databaseObserve, hnf]

/-- Witness for C5 at a concrete resource and a concrete not-found error. -/
theorem C5_witness :
    passwordObserve (.password crPw0) (none, some notFoundErr) =
      .ok (.password crPw0, { resourceExists := false }, none) :=
  C5_notFound_maps_to_not_exists.1 crPw0 "mydb" none (some notFoundErr) rfl rfl

/-- C6: Update of either client returns the managed resource untouched, the
zero update and a nil error, for every input; it takes no external response
at all, i.e. it performs no call against the external system. -/
theorem C6_update_always_succeeds :
    ∀ mg : Managed,
      passwordUpdate mg = (mg, {}, none) ∧ databaseUpdate mg = (mg, {}, none) := by
  intro mg
  exact ⟨rfl, rfl⟩

/-- C9 counterexample: the database client's Observe faults (nil-pointer
dereference of the query result) on a path where the query returned an
error, refuting the claim that the `db.State` dereference happens only on
error-free paths. -/
theorem C9_counterexample_deref_on_error_path :
    databaseObserve (.database crDb0) (none, some internalErr) = .fault := rfl

/-- C9 amended: the `db.State` dereference occurs on every path on which the
query's error is not the not-found sentinel, error paths included, so
Observe faults whenever the result is nil and the error is not the
not-found sentinel. -/
theorem C9_amended_observe_derefs_unless_notFound :
    ∀ (cr : DatabaseCR) (err : Option GoError),
      isNotFoundSentinel err = false →
      databaseObserve (.database cr) (none, err) = .fault := by
  intro cr err hnf
  simp [databaseObserve, hnf]

/-- Witness for the amended C9 at a concrete resource and server error. -/
theorem C9_amended_witness :
    databaseObserve (.database crDb0) (none, some internalErr) = .fault :=
  C9_amended_observe_derefs_unless_notFound crDb0 (some internalErr) rfl

/-- C4 counterexample: `crPw0` enters the password client's Create with a
non-empty external name, and the successful Create reassigns it to the
created password's public ID `"pscale-id-2"`, a different value — so a
client operation does change an already-set ExternalName. -/
theorem C4_counterexample_create_reassigns_externalName :
    crPw0.externalName ≠ "" ∧
    passwordCreate (.password crPw0) (some pwNew0, none) =
      .ok (.password { crPw0 with externalName := "pscale-id-2",
                                  atProviderID := "pscale-id-2" },
           { connectionDetails :=
               [("host", "aws.connect.psdb.cloud"),
                ("username", "pscale-id-2"),
                ("password", "s3cret"),
                ("database", "mydb")] },
           none) ∧
    "pscale-id-2" ≠ crPw0.externalName := by
  refine ⟨by decide, rfl, by decide⟩

/-- C4 amended: Observe, Update and Delete of both clients and the database
client's Create never change the ExternalName of the managed resource they
return; the branch-password client's Create, however, sets it to the created
password's public ID on every successful call, reassigning any previously
set value. -/
theorem C4_externalName_reassigned_only_by_password_create :
    (∀ mg rp out, passwordObserve mg rp = .ok out →
      out.1.externalName = mg.externalName) ∧
    (∀ mg rd out, databaseObserve mg rd = .ok out →
      out.1.externalName = mg.externalName) ∧
    (∀ mg, (passwordUpdate mg).1 = mg) ∧
    (∀ mg, (databaseUpdate mg).1 = mg) ∧
    (∀ mg r out, passwordDelete mg r = .ok out →
      out.1.externalName = mg.externalName) ∧
    (∀ mg r out, databaseDelete mg r = .ok out →
      out.1.externalName = mg.externalName) ∧
    (∀ mg rd out, databaseCreate mg rd = .ok out →
      out.1.externalName = mg.externalName) ∧
    (∀ mg rp out, passwordCreate mg rp = .ok out →
      out.1.externalName = mg.externalName ∨
      ∃ pw, rp.1 = some pw ∧ out.1.externalName = pw.publicID) := by
  refine ⟨?_, ?_, ?_, ?_, ?_, ?_, ?_, ?_⟩
  · rintro mg ⟨p, err⟩ out h
    cases mg with
    | password cr =>
      cases hdb : cr.forProvider.database with
      | none => simp [passwordObserve, hdb] at h
      | some d =>
        simp only [passwordObserve, hdb] at h
        split at h
        · injection h with h2; subst h2; rfl
        · cases p with
          | none => exact Outcome.noConfusion h
          | some pw => injection h with h2; subst h2; rfl
    | database cr =>
      simp only [passwordObserve] at h
      injection h with h2; subst h2; rfl
    | foreign =>
      simp only [passwordObserve] at h
      injection h with h2; subst h2; rfl
  · rintro mg ⟨db, err⟩ out h
    cases mg with
    | database cr =>
      simp only [databaseObserve] at h
      split at h
      · injection h with h2; subst h2; rfl
      · cases db with
        | none => exact Outcome.noConfusion h
        | some dbv =>
          injection h with h2
          subst h2
          by_cases hs : dbv.state == databaseReady <;>
            simp [hs, Managed.externalName]
    | password cr =>
      simp only [databaseObserve] at h
      injection h with h2; subst h2; rfl
    | foreign =>
      simp only [databaseObserve] at h
      injection h with h2; subst h2; rfl
  · intro mg; rfl
  · intro mg; rfl
  · rintro mg r out h
    cases mg with
    | password cr =>
      cases hdb : cr.forProvider.database with
      | none => simp [passwordDelete, hdb] at h
      | some d =>
        simp only [passwordDelete, hdb] at h
        injection h with h2; subst h2; rfl
    | database cr =>
      simp only [passwordDelete] at h
      injection h with h2; subst h2; rfl
    | foreign =>
      simp only [passwordDelete] at h
      injection h with h2; subst h2; rfl
  · rintro mg r out h
    cases mg <;> simp only [databaseDelete] at h <;>
      (injection h with h2; subst h2; rfl)
  · rintro mg ⟨db, err⟩ out h
    cases mg with
    | database cr =>
      simp only [databaseCreate] at h
      cases err with
      | some e => injection h with h2; subst h2; rfl
      | none =>
        cases db with
        | none => exact Outcome.noConfusion h
        | some dbv => injection h with h2; subst h2; rfl
    | password cr =>
      simp only [databaseCreate] at h
      injection h with h2; subst h2; rfl
    | foreign =>
      simp only [databaseCreate] at h
      injection h with h2; subst h2; rfl
  · rintro mg ⟨p, err⟩ out h
    cases mg with
    | password cr =>
      cases hdb : cr.forProvider.database with
      | none => simp [passwordCreate, hdb] at h
      | some d =>
        simp only [passwordCreate, hdb] at h
        cases err with
        | some e => left; injection h with h2; subst h2; rfl
        | none =>
          cases p with
          | none => exact Outcome.noConfusion h
          | some pw =>
            right
            injection h with h2
            subst h2
            exact ⟨pw, rfl, rfl⟩
    | database cr =>
      simp only [passwordCreate] at h
      injection h with h2; subst h2; left; rfl
    | foreign =>
      simp only [passwordCreate] at h
      injection h with h2; subst h2; left; rfl

/-- Witness for the amended C4: a concrete successful Create whose returned
resource carries the response's public ID as its external name. -/
theorem C4_amended_witness :
    "pscale-id-2" = crPw0.externalName ∨
    ∃ pw, (some pwNew0, (none : Option GoError)).1 = some pw ∧
      "pscale-id-2" = pw.publicID :=
  C4_externalName_reassigned_only_by_password_create.2.2.2.2.2.2.2
    (.password crPw0) (some pwNew0, none)
    (.password { crPw0 with externalName := pwNew0.publicID,
                            atProviderID := pwNew0.publicID },
     { connectionDetails :=
         [("host", pwNew0.branch.accessHostURL),
          ("username", pwNew0.publicID),
          ("password", pwNew0.plainText),
          ("database", "mydb")] },
     none) rfl

/-- C7: Connect threads the external-system state through untouched (it
performs no operation against the external system), each of its four failure
points returns the underlying error wrapped with its own stage tag
(errTrackPCUsage, errGetPC, errGetCreds, errNewClient, in stage order), and
the four tags are pairwise distinct, so any two distinct stages yield
distinguishable errors. -/
theorem C7_connect_stage_tagging :
    (∀ (σ : Type) (mg : Managed) (env : ConnectEnv) (s : σ),
      (passwordConnect mg env s).2 = s) ∧
    (∀ (σ : Type) (mg : Managed) (env : ConnectEnv) (s : σ),
      (databaseConnect mg env s).2 = s) ∧
    (∀ (cr : Password) (env : ConnectEnv) (e : GoError),
      env.trackErr = some e →
      (passwordConnect (.password cr) env ()).1 = some (.wrap errTrackPCUsage e)) ∧
    (∀ (cr : Password) (env : ConnectEnv) (e : GoError),
      env.trackErr = none → env.getPCErr = some e →
      (passwordConnect (.password cr) env ()).1 = some (.wrap errGetPC e)) ∧
    (∀ (cr : Password) (env : ConnectEnv) (e : GoError),
      env.trackErr = none → env.getPCErr = none → env.credsErr = some e →
      (passwordConnect (.password cr) env ()).1 = some (.wrap errGetCreds e)) ∧
    (∀ (cr : Password) (env : ConnectEnv) (e : GoError),
      env.trackErr = none → env.getPCErr = none → env.credsErr = none →
      env.newServiceErr = some e →
      (passwordConnect (.password cr) env ()).1 = some (.wrap errNewClient e)) ∧
    (∀ (cr : DatabaseCR) (env : ConnectEnv) (e : GoError),
      env.trackErr = some e →
      (databaseConnect (.database cr) env ()).1 = some (.wrap errTrackPCUsage e)) ∧
    (∀ (cr : DatabaseCR) (env : ConnectEnv) (e : GoError),
      env.trackErr = none → env.getPCErr = some e →
      (databaseConnect (.database cr) env ()).1 = some (.wrap errGetPC e)) ∧
    (∀ (cr : DatabaseCR) (env : ConnectEnv) (e : GoError),
      env.trackErr = none → env.getPCErr = none → env.credsErr = some e →
      (databaseConnect (.database cr) env ()).1 = some (.wrap errGetCreds e)) ∧
    (∀ (cr : DatabaseCR) (env : ConnectEnv) (e : GoError),
      env.trackErr = none → env.getPCErr = none → env.credsErr = none →
      env.newServiceErr = some e →
      (databaseConnect (.database cr) env ()).1 = some (.wrap errNewClient e)) ∧
    (errTrackPCUsage ≠ errGetPC ∧ errTrackPCUsage ≠ errGetCreds ∧
     errTrackPCUsage ≠ errNewClient ∧ errGetPC ≠ errGetCreds ∧
     errGetPC ≠ errNewClient ∧ errGetCreds ≠ errNewClient) := by
  refine ⟨?_, ?_, ?_, ?_, ?_, ?_, ?_, ?_, ?_, ?_, ?_⟩
  · intro σ mg env s
    obtain ⟨te, ge, ce, cs, nse⟩ := env
    cases mg <;> cases te <;> cases ge <;> cases ce <;> cases nse <;> rfl
  · intro σ mg env s
    obtain ⟨te, ge, ce, cs, nse⟩ := env
    cases mg <;> cases te <;> cases ge <;> cases ce <;> cases nse <;> rfl
  · intro cr env e h1; simp [passwordConnect, h1]
  · intro cr env e h1 h2; simp [passwordConnect, h1, h2]
  · intro cr env e h1 h2 h3; simp [passwordConnect, h1, h2, h3]
  · intro cr env e h1 h2 h3 h4; simp [passwordConnect, h1, h2, h3, h4]
  · intro cr env e h1; simp [databaseConnect, h1]
  · intro cr env e h1 h2; simp [databaseConnect, h1, h2]
  · intro cr env e h1 h2 h3; simp [databaseConnect, h1, h2, h3]
  · intro cr env e h1 h2 h3 h4; simp [databaseConnect, h1, h2, h3, h4]
  · exact ⟨by decide, by decide, by decide, by decide, by decide, by decide⟩

/-- Witness for C7: a concrete usage-tracking failure comes back wrapped
with the errTrackPCUsage stage tag. -/
theorem C7_witness :
    (passwordConnect (Managed.password crPw0)
      { trackErr := some (GoError.simple "boom"), getPCErr := none,
        credsErr := none, creds := "", newServiceErr := none } ()).1 =
      some (.wrap errTrackPCUsage (.simple "boom")) :=
  C7_connect_stage_tagging.2.2.1 crPw0
    { trackErr := some (GoError.simple "boom"), getPCErr := none,
      credsErr := none, creds := "", newServiceErr := none }
    (GoError.simple "boom") rfl

/-- C8 counterexample: a successful Create of the database client returns an
empty connection-details mapping — it contains none of the keys host,
username, password, database, refuting the claim for "every successful
Create". -/
theorem C8_counterexample_database_create_empty_details :
    databaseCreate (.database crDb0) (some { state := "pending" }, none) =
      .ok (.database { crDb0 with atProviderState := "pending" },
           { connectionDetails := [] }, none) := rfl

/-- C8 amended: a successful Create of the branch-password client returns a
mapping of exactly the keys host (branch access host URL), username (the
password's public ID), password (the plaintext password) and database (the
database name); a successful Create of the database client returns an empty
mapping. -/
theorem C8_amended_create_connection_details :
    (∀ (cr : Password) (d : String) (pw : DatabaseBranchPassword),
      cr.forProvider.database = some d →
      passwordCreate (.password cr) (some pw, none) =
        .ok (.password { cr with externalName := pw.publicID,
                                 atProviderID := pw.publicID },
             { connectionDetails :=
                 [("host", pw.branch.accessHostURL),
                  ("username", pw.publicID),
                  ("password", pw.plainText),
                  ("database", d)] },
             none)) ∧
    (∀ (cr : DatabaseCR) (db : PSDatabase),
      databaseCreate (.database cr) (some db, none) =
        .ok (.database { cr with atProviderState := db.state },
             { connectionDetails := [] }, none)) := by
  constructor
  · intro cr d pw hdb
    simp [passwordCreate, hdb]
  · intro cr db
    simp [databaseCreate]

/-- Witness for the amended C8 at a concrete resource and create response. -/
theorem C8_amended_witness :
    passwordCreate (.password crPw0) (some pwNew0, none) =
      .ok (.password { crPw0 with externalName := pwNew0.publicID,
                                  atProviderID := pwNew0.publicID },
           { connectionDetails :=
               [("host", pwNew0.branch.accessHostURL),
                ("username", pwNew0.publicID),
                ("password", pwNew0.plainText),
                ("database", "mydb")] },
           none) :=
  C8_amended_create_connection_details.1 crPw0 "mydb" pwNew0 rfl

/-- C10: Update of either client returns a nil error for every managed
resource, while Observe, Create, Delete and Connect of a client all answer a
wrong-kind input with that client's type-mismatch error (errNotPassword /
errNotDatabase). -/
theorem C10_update_has_no_kind_check :
    ∀ mg : Managed,
      (passwordUpdate mg).2.2 = none ∧ (databaseUpdate mg).2.2 = none ∧
      ((∀ cr, mg ≠ Managed.password cr) →
        (∀ rp, passwordObserve mg rp =
          .ok (mg, {}, some (.simple errNotPassword))) ∧
        (∀ rp, passwordCreate mg rp =
          .ok (mg, {}, some (.simple errNotPassword))) ∧
        (∀ r, passwordDelete mg r = .ok (mg, some (.simple errNotPassword))) ∧
        (∀ (env : ConnectEnv),
          (passwordConnect mg env ()).1 = some (.simple errNotPassword))) ∧
      ((∀ cr, mg ≠ Managed.database cr) →
        (∀ rd, databaseObserve mg rd =
          .ok (mg, {}, some (.simple errNotDatabase))) ∧
        (∀ rd, databaseCreate mg rd =
          .ok (mg, {}, some (.simple errNotDatabase))) ∧
        (∀ r, databaseDelete mg r = .ok (mg, some (.simple errNotDatabase))) ∧
        (∀ (env : ConnectEnv),
          (databaseConnect mg env ()).1 = some (.simple errNotDatabase))) := by
  intro mg
  refine ⟨rfl, rfl, ?_, ?_⟩
  · intro hne
    cases mg with
    | password cr => exact absurd rfl (hne cr)
    | database cr =>
      exact ⟨fun rp => rfl, fun rp => rfl, fun r => rfl, fun env => rfl⟩
    | foreign =>
      exact ⟨fun rp => rfl, fun rp => rfl, fun r => rfl, fun env => rfl⟩
  · intro hne
    cases mg with
    | database cr => exact absurd rfl (hne cr)
    | password cr =>
      exact ⟨fun rd => rfl, fun rd => rfl, fun r => rfl, fun env => rfl⟩
    | foreign =>
      exact ⟨fun rd => rfl, fun rd => rfl, fun r => rfl, fun env => rfl⟩

/-- Witness for C10: at a foreign-kind input, Update succeeds while both
Observe implementations return their type-mismatch errors. -/
theorem C10_witness :
    (passwordUpdate Managed.foreign).2.2 = none ∧
    passwordObserve Managed.foreign (none, none) =
      .ok (.foreign, {}, some (.simple errNotPassword)) ∧
    databaseObserve Managed.foreign (none, none) =
      .ok (.foreign, {}, some (.simple errNotDatabase)) :=
  ⟨(C10_update_has_no_kind_check Managed.foreign).1,
   ((C10_update_has_no_kind_check Managed.foreign).2.2.1
      (fun _cr h => Managed.noConfusion h)).1 (none, none),
   ((C10_update_has_no_kind_check Managed.foreign).2.2.2
      (fun _cr h => Managed.noConfusion h)).1 (none, none)⟩

end PlanetScaleProvider
